import Mathlib

/-!
Verification of the mcpgopher Streamable HTTP client transport
(`client/transport/streamable_http.go`, `client/transport/interface.go`,
`client/http.go`).

The Go code is shallowly embedded: the HTTP exchange is represented by the
decoded response data (status code, headers, parsed content type, body decode
views), JSON (un)marshalling is represented by decode views attached to raw
payload strings (or supplied as decode functions), the `atomic.Value` session
cell is a `String` (resp. `Option String` where the typed-cell invariant is
itself at stake), and the SSE goroutine's sequential processing of events is
a trace of actions.
-/

namespace Mcpgopher

/-! ## Wire data model (`client/transport/interface.go`) -/

/-- The `Error` field of `JSONRPCResponse`: numeric code, message, raw data. -/
structure RPCError where
  code : Int
  message : String
  data : String
deriving Repr, DecidableEq

/-- `JSONRPCResponse`: `ID` is a pointer in Go (`nil` for a JSON `null` or
absent identifier), modelled as `Option String`.  `Result` holds the raw
`json.RawMessage` bytes. -/
structure JSONRPCResponse where
  jsonrpc : String
  id : Option String
  result : String
  error : Option RPCError
deriving Repr, DecidableEq

/-- `JSONRPCNotification`: method plus the open `AdditionalFields` bag,
modelled as an association list. -/
structure JSONRPCNotification where
  jsonrpc : String
  method : String
  params : List (String × String)
deriving Repr, DecidableEq

/-- `JSONRPCRequest` as built by the client (string identifiers, as in the
transport tests and `HTTPClient.Request`). -/
structure JSONRPCRequest where
  jsonrpc : String
  id : String
  method : String
  params : Option String
deriving Repr, DecidableEq

/-- A raw body / event payload together with the outcomes of
`json.Unmarshal` into the two envelope shapes the transport attempts:
`asResponse = none` means unmarshalling into `JSONRPCResponse` fails,
likewise `asNotification` for `JSONRPCNotification`. -/
structure Payload where
  raw : String
  asResponse : Option JSONRPCResponse
  asNotification : Option JSONRPCNotification
deriving Repr, DecidableEq

/-- The errors `SendRequest` / `handleSSEResponse` can return, as data so
that the payloads they embed (raw body, status code) are visible. -/
inductive SendError where
  /-- "session terminated (404). need to re-initialize" -/
  | sessionTerminated : SendError
  /-- "request failed with status %d: %s" (status code, raw body) -/
  | httpStatus (code : Nat) (body : String) : SendError
  /-- "failed to decode response: ...\nRaw payload: %s" -/
  | decodeFailed (raw : String) : SendError
  /-- "response should contain RPC id. Raw payload: %s" -/
  | nullID (raw : String) : SendError
  /-- "unexpected content type: %s" -/
  | unexpectedContentType (ct : String) : SendError
  /-- "unexpected nil response" (closed completion channel) -/
  | nilResponse : SendError
deriving Repr, DecidableEq

/-! ## Streaming decoder (`StreamableHTTP.readSSE`)

`readSSE` reads lines with `bufio.Reader.ReadString`.  We model its input as
the list of complete (newline-terminated) lines the reader yields, followed
by how the stream ends: `io.EOF`, or another read error.  (On `io.EOF` Go's
`ReadString` may also return a final unterminated fragment; `readSSE` checks
the error first and never looks at that fragment, so it does not appear in
the model.) -/

/-- How the line reader's loop ends: `io.EOF`, or a fatal read error. -/
inductive StreamEnd where
  | eof : StreamEnd
  | ioError : StreamEnd
deriving Repr, DecidableEq

/-- `strings.TrimRight(line, "\r\n")`: strip all trailing CR/LF characters. -/
def stripCRLF (s : String) : String :=
  String.mk ((s.toList.reverse.dropWhile (fun c => c = '\r' || c = '\n')).reverse)

/-- The characters Go's `unicode.IsSpace` recognises in the Latin-1 range
(the data handled here is ASCII). -/
def isGoSpace (c : Char) : Bool :=
  c = ' ' || c = '\t' || c = '\n' || c = '\u000b' || c = '\u000c' || c = '\r' ||
    c = '\u0085' || c = ' '

/-- `strings.TrimSpace`: strip leading and trailing whitespace. -/
def goTrimSpace (s : String) : String :=
  String.mk (((s.toList.dropWhile isGoSpace).reverse.dropWhile isGoSpace).reverse)

/-- `strings.HasPrefix s p`. -/
def goHasPrefix (s p : String) : Bool :=
  p.toList.isPrefixOf s.toList

/-- Drop the first `n` characters of `s` (the effect of
`strings.TrimPrefix s p` when `p` of length `n` is known to be a prefix). -/
def goDropChars (s : String) (n : Nat) : String :=
  String.mk (s.toList.drop n)

/-- One iteration of the `readSSE` loop body on a line already read:
returns the new `(event, data)` accumulators and the event emitted to the
handler, if any.  Mirrors the source: blank line = boundary (emit iff both
accumulators non-empty, then reset), `event:` sets the trimmed name,
`data:` sets the trimmed data, anything else is ignored. -/
def readSSELine (st : String × String) (rawLine : String) :
    (String × String) × Option (String × String) :=
  let line := stripCRLF rawLine
  if line = "" then
    if st.1 ≠ "" ∧ st.2 ≠ "" then (("", ""), some st) else (st, none)
  else if goHasPrefix line "event:" then
    ((goTrimSpace (goDropChars line 6), st.2), none)
  else if goHasPrefix line "data:" then
    ((st.1, goTrimSpace (goDropChars line 5)), none)
  else
    (st, none)

/-- The `readSSE` loop from given accumulators: processes each line in order,
then applies the end-of-stream rule — on `io.EOF` a pending event (both
accumulators non-empty) is emitted once; on any other read error nothing
more is emitted.  The value is the sequence of `(event, data)` pairs passed
to the handler, in order. -/
def readSSEFrom : String × String → List String → StreamEnd → List (String × String)
  | st, [], .eof => if st.1 ≠ "" ∧ st.2 ≠ "" then [st] else []
  | _, [], .ioError => []
  | st, l :: rest, ending =>
    match readSSELine st l with
    | (st1, some ev) => ev :: readSSEFrom st1 rest ending
    | (st1, none) => readSSEFrom st1 rest ending

/-- `StreamableHTTP.readSSE`: both accumulators start empty. -/
def readSSE (lines : List String) (ending : StreamEnd) : List (String × String) :=
  readSSEFrom ("", "") lines ending

/-! The state machine described by the specification, written independently
from its words: two accumulators; an `event:` line sets the (trimmed) name;
a `data:` line sets the (trimmed) data; other non-blank lines change
nothing; a blank line emits-and-resets exactly when both accumulators are
non-empty and is a no-op otherwise; at end-of-stream a pending pair (both
non-empty) is emitted exactly once; a non-EOF read error emits nothing
further. -/

/-- Specification state machine: accumulator update for one line. -/
def sseSpecUpdate (name data line : String) : String × String :=
  if goHasPrefix line "event:" then (goTrimSpace (goDropChars line 6), data)
  else if goHasPrefix line "data:" then (name, goTrimSpace (goDropChars line 5))
  else (name, data)

/-- Specification state machine: events emitted by one line. -/
def sseSpecEmit (name data line : String) : List (String × String) :=
  if line = "" ∧ name ≠ "" ∧ data ≠ "" then [(name, data)] else []

/-- Specification state machine: accumulator reset on a blank-line boundary
when both accumulators are non-empty. -/
def sseSpecNext (name data line : String) : String × String :=
  if line = "" then
    if name ≠ "" ∧ data ≠ "" then ("", "") else (name, data)
  else sseSpecUpdate name data line

/-- Specification state machine, run over (terminator-stripped) lines. -/
def sseSpecRun : String × String → List String → StreamEnd → List (String × String)
  | (name, data), [], .eof => if name ≠ "" ∧ data ≠ "" then [(name, data)] else []
  | _, [], .ioError => []
  | (name, data), l :: rest, ending =>
    sseSpecEmit name data l ++ sseSpecRun (sseSpecNext name data l) rest ending

/-- Specification state machine over raw lines: strip the line terminator
first, start with empty accumulators. -/
def sseSpec (lines : List String) (ending : StreamEnd) : List (String × String) :=
  sseSpecRun ("", "") (lines.map stripCRLF) ending

/-! ## Stream/response correlation (`StreamableHTTP.handleSSEResponse`)

The goroutine feeds every `(event, data)` pair emitted by `readSSE` through
the per-event callback, sequentially.  We record what the callback does for
each event as a trace of `SSEAction`s: `notify` = the registered
notification handler was invoked, `deliver` = a response was sent to the
single-slot completion channel.  The caller resolves with the first
delivered response; if the stream ends with none delivered, the channel is
closed and the caller observes a `nil` response.

JSON unmarshalling of event data is supplied as two decode functions
`decR` / `decN` (the outcomes of `json.Unmarshal` into `JSONRPCResponse`
resp. `JSONRPCNotification` on a given data string). -/

/-- An observable action of the SSE-processing goroutine's callback. -/
inductive SSEAction where
  | notify (n : JSONRPCNotification) : SSEAction
  | deliver (r : JSONRPCResponse) : SSEAction
deriving Repr, DecidableEq

/-- The per-event callback of `handleSSEResponse` on one data payload:
unmarshal as a response (failure ⇒ log and skip); a `nil` identifier makes
it a notification — re-unmarshal (failure ⇒ log and skip) and invoke the
registered handler if one is set (otherwise drop silently); a present
identifier is delivered to the completion channel. -/
def sseHandleEvent (decR : String → Option JSONRPCResponse)
    (decN : String → Option JSONRPCNotification) (hasHandler : Bool)
    (data : String) : Option SSEAction :=
  match decR data with
  | none => none
  | some message =>
    if message.id = none then
      match decN data with
      | none => none
      | some n => if hasHandler then some (.notify n) else none
    else
      some (.deliver message)

/-- The trace of actions the goroutine performs for a list of emitted
events (it processes the events in order; the trace order is the temporal
order of handler invocations and channel deliveries). -/
def sseActions (decR : String → Option JSONRPCResponse)
    (decN : String → Option JSONRPCNotification) (hasHandler : Bool)
    (events : List (String × String)) : List SSEAction :=
  events.filterMap (fun e => sseHandleEvent decR decN hasHandler e.2)

/-- The first response delivered to the completion channel, if any — this
is the value the caller's `select` receives. -/
def firstDelivered : List SSEAction → Option JSONRPCResponse
  | [] => none
  | .notify _ :: rest => firstDelivered rest
  | .deliver r :: _ => some r

/-- The result `handleSSEResponse` returns to its caller (no cancellation):
the first delivered response, or — when the goroutine finishes and closes
the channel without delivering — the "unexpected nil response" error. -/
def handleSSEResponse (decR : String → Option JSONRPCResponse)
    (decN : String → Option JSONRPCNotification) (hasHandler : Bool)
    (events : List (String × String)) : Except SendError JSONRPCResponse :=
  match firstDelivered (sseActions decR decN hasHandler events) with
  | some r => .ok r
  | none => .error .nilResponse

/-! ## Request dispatch (`StreamableHTTP.SendRequest`) -/

/-- The decoded HTTP response to one exchange: status code, the
`Mcp-Session-Id` response header (`Header.Get` returns `""` when absent),
the parsed `Content-Type` media type, the body as a single-JSON payload
view, and the body as an SSE line sequence view (two views of the same
bytes; the content type selects which one `SendRequest` consumes). -/
structure HTTPResponse where
  statusCode : Nat
  sessionHeader : String
  contentType : String
  bodyJSON : Payload
  bodyLines : List String
  bodyEnd : StreamEnd

/-- The `application/json` branch of `SendRequest`: decode one response
envelope (failure carries the raw payload); a `nil` identifier is rejected
— with the raw payload — unless the request method is `"ping"`. -/
def decodeSingleJSON (requestMethod : String) (body : Payload) :
    Except SendError JSONRPCResponse :=
  match body.asResponse with
  | none => .error (.decodeFailed body.raw)
  | some response =>
    if response.id = none ∧ requestMethod ≠ "ping" then
      .error (.nullID body.raw)
    else
      .ok response

/-- `StreamableHTTP.SendRequest` after the HTTP round trip, acting on the
session cell.  `loadedSession` is the value `c.sessionID.Load()` returned
when the request headers were built; `cell` is the cell's current value
when the response is processed (equal to `loadedSession` on a quiescent
client, possibly different if another exchange refreshed it).  Returns the
cell's new value and the call's result.

  * status ∉ {200, 202}: 404 ⇒ `CompareAndSwap(loadedSession, "")` and the
    re-initialize error; otherwise try to decode an error-shaped envelope
    from the body (success ⇒ returned as a normal response, error `nil`),
    else a transport error embedding status and raw body;
  * success + method `"initialize"`: store the `Mcp-Session-Id` response
    header, but only when it is non-empty;
  * then branch on content type: single JSON decode, SSE correlation, or
    the unexpected-content-type error. -/
def sendRequestCore (decR : String → Option JSONRPCResponse)
    (decN : String → Option JSONRPCNotification) (hasHandler : Bool)
    (loadedSession : String) (cell : String) (requestMethod : String)
    (resp : HTTPResponse) : String × Except SendError JSONRPCResponse :=
  if resp.statusCode ≠ 200 ∧ resp.statusCode ≠ 202 then
    if resp.statusCode = 404 then
      ((if cell = loadedSession then "" else cell), .error .sessionTerminated)
    else
      match resp.bodyJSON.asResponse with
      | some errResponse => (cell, .ok errResponse)
      | none => (cell, .error (.httpStatus resp.statusCode resp.bodyJSON.raw))
  else
    let cell1 :=
      if requestMethod = "initialize" ∧ resp.sessionHeader ≠ "" then
        resp.sessionHeader
      else cell
    if resp.contentType = "application/json" then
      (cell1, decodeSingleJSON requestMethod resp.bodyJSON)
    else if resp.contentType = "text/event-stream" then
      (cell1, handleSSEResponse decR decN hasHandler
        (readSSE resp.bodyLines resp.bodyEnd))
    else
      (cell1, .error (.unexpectedContentType resp.contentType))

/-- `StreamableHTTP.GetSessionId`: load the session cell (the cell always
holds a string — see the typed-cell invariant below). -/
def getSessionId (cell : String) : String := cell

/-! ## Lifecycle (`StreamableHTTP.Close`) -/

/-- The lifecycle state `Close` touches: whether the `closed` channel has
been closed, and the session cell. -/
structure LifecycleState where
  closed : Bool
  sessionID : String
deriving Repr, DecidableEq

/-- `StreamableHTTP.Close`: if the `closed` channel is already closed
(observed by the non-blocking receive), return `nil` at once; otherwise
close the channel, and — only when the session token is non-empty — clear
it and issue one asynchronous session-termination notice (an HTTP DELETE
carrying that token).  Returns the new state, the list of termination
notices issued (each carrying the token it was sent with), and the
returned error (always `nil` = `none`). -/
def closeOp (s : LifecycleState) : LifecycleState × List String × Option SendError :=
  if s.closed then
    (s, [], none)
  else if s.sessionID ≠ "" then
    ({ closed := true, sessionID := "" }, [s.sessionID], none)
  else
    ({ closed := true, sessionID := s.sessionID }, [], none)

/-! ## Request identifier generation

`HTTPClient.Request` (`client/http.go`) builds the identifier as
`fmt.Sprintf("%d", time.Now().UnixNano())` — a function of the clock
reading alone.  `StreamableHTTP.Request` builds a ULID from
`ulid.Timestamp(time.Now())` (milliseconds) and a fresh monotonic entropy
source `rand.New(rand.NewSource(time.Now().UnixNano()))`; Go's
`rand.NewSource` is a deterministic PRNG of its seed, so the ULID too is a
deterministic function of the clock reading.  Both are modelled as
functions of the nanosecond clock value; the call making the request
carries no other input into the identifier. -/

/-- `HTTPClient.Request`'s envelope for a call at clock reading
`nowUnixNano`. -/
def httpClientBuildRequest (method : String) (params : Option String)
    (nowUnixNano : Int) : JSONRPCRequest :=
  { jsonrpc := "2.0", id := toString nowUnixNano, method := method, params := params }

/-- The pair that determines the ULID `StreamableHTTP.Request` generates at
clock reading `nowUnixNano`: the millisecond timestamp and the entropy
seed.  Two calls with equal clock readings produce equal ULIDs. -/
def streamableRequestIDSeed (nowUnixNano : Int) : Int × Int :=
  (nowUnixNano / 1000000, nowUnixNano)

/-- The ULID-determining pair for the `callIndex`-th of several concurrent
`StreamableHTTP.Request` calls: the call's identity contributes nothing —
each call builds its identifier from its clock reading alone. -/
def streamableRequestIDSeedOfCall (callIndex : Nat) (nowUnixNano : Int) : Int × Int :=
  match callIndex with
  | _ => streamableRequestIDSeed nowUnixNano

/-! ## The typed session cell (`atomic.Value`)

`GetSessionId` performs `c.sessionID.Load().(string)`, which panics if the
cell has never been stored (`Load` returns `nil`) or holds a non-string.
The cell is modelled as `Option String` (`none` = never stored); every
mutation the code performs on it is a constructor of `SessionCellStep`. -/

/-- One mutation of the session cell, as performed somewhere in the code:
the 404 compare-and-swap in `SendRequest`, the initialize-header store in
`SendRequest` (guarded to non-empty values), and the clear in `Close`
(performed only when the loaded token is non-empty). -/
inductive SessionCellStep : Option String → Option String → Prop
  | cas404 (cur : Option String) (loaded : String) :
      SessionCellStep cur (if cur = some loaded then some "" else cur)
  | storeInitHeader (cur : Option String) (v : String) :
      v ≠ "" → SessionCellStep cur (some v)
  | closeClear (cur : String) :
      cur ≠ "" → SessionCellStep (some cur) (some "")

/-- `NewStreamableHTTP` stores `""` into the cell before returning
(`smc.sessionID.Store("")`), so this is the cell's value before any
operation can run. -/
def newSessionCell : Option String := some ""

/-- Cell values reachable from construction by the code's mutations. -/
def sessionCellReachable (cell : Option String) : Prop :=
  Relation.ReflTransGen SessionCellStep newSessionCell cell

/-- `GetSessionId`'s body including the type assertion: `none` (= a `nil`
`Load`) makes the assertion panic, modelled as `Except` failure. -/
def getSessionIdChecked (cell : Option String) : Except Unit String :=
  match cell with
  | some s => .ok s
  | none => .error ()

/-! ## Theorems -/

/-- One loop iteration of `readSSE` agrees with the specification state
machine's per-line update and emission. -/
theorem readSSELine_spec (st : String × String) (l : String) :
    readSSELine st l =
      (sseSpecNext st.1 st.2 (stripCRLF l),
        (sseSpecEmit st.1 st.2 (stripCRLF l)).head?) := by
  obtain ⟨name, data⟩ := st
  unfold readSSELine sseSpecNext sseSpecEmit sseSpecUpdate
  by_cases h0 : stripCRLF l = ""
  · by_cases h1 : name ≠ "" ∧ data ≠ "" <;> simp [h0, h1]
  · have he : ¬(stripCRLF l = "" ∧ name ≠ "" ∧ data ≠ "") := fun h => h0 h.1
    by_cases h2 : goHasPrefix (stripCRLF l) "event:" = true <;>
      by_cases h3 : goHasPrefix (stripCRLF l) "data:" = true <;>
        simp [h0, he, h2, h3]

/-- The `readSSE` loop from arbitrary accumulators agrees with the
specification state machine run over the terminator-stripped lines. -/
theorem readSSEFrom_spec (lines : List String) : ∀ st ending,
    readSSEFrom st lines ending = sseSpecRun st (lines.map stripCRLF) ending := by
  induction lines with
  | nil =>
    intro st ending
    obtain ⟨name, data⟩ := st
    cases ending <;> rfl
  | cons l rest ih =>
    intro st ending
    obtain ⟨name, data⟩ := st
    have hrun : sseSpecRun (name, data) (stripCRLF l :: rest.map stripCRLF) ending
        = sseSpecEmit name data (stripCRLF l)
          ++ sseSpecRun (sseSpecNext name data (stripCRLF l)) (rest.map stripCRLF) ending := rfl
    rw [List.map_cons, hrun]
    simp only [readSSEFrom, readSSELine_spec]
    by_cases hc : stripCRLF l = "" ∧ name ≠ "" ∧ data ≠ ""
    · simp [sseSpecEmit, hc, ih]
    · simp [sseSpecEmit, hc, ih]

/-- C4: for every input line sequence and stream ending, the streaming
decoder `readSSE` emits exactly the events of the described state machine:
`event:` lines set the trimmed name, `data:` lines set the trimmed data,
other non-blank lines change nothing, a blank line emits-and-resets exactly
when both accumulators are non-empty (a no-op otherwise), end-of-stream
emits a pending pair (both accumulators non-empty) exactly once, and a
non-EOF read error terminates without emitting the pending pair. -/
theorem c4_readSSE_state_machine (lines : List String) (ending : StreamEnd) :
    readSSE lines ending = sseSpec lines ending :=
  readSSEFrom_spec lines ("", "") ending

/-- C1: on an HTTP 404 the exchange clears the session token by
compare-and-swap against the value loaded for this exchange and returns the
re-initialize error with no response: the call's result is exactly the
distinguished error, the new cell value is the compare-and-swap outcome, on
a quiescent client (cell still equal to the loaded value) a subsequent
`GetSessionId` returns the empty string, and a token refreshed concurrently
by another exchange (cell ≠ loaded value) is left untouched. -/
theorem c1_session_expiry_404 (decR : String → Option JSONRPCResponse)
    (decN : String → Option JSONRPCNotification) (hasHandler : Bool)
    (loadedSession cell requestMethod : String) (resp : HTTPResponse)
    (h404 : resp.statusCode = 404) :
    sendRequestCore decR decN hasHandler loadedSession cell requestMethod resp
      = ((if cell = loadedSession then "" else cell), .error .sessionTerminated)
    ∧ (cell = loadedSession →
        getSessionId (sendRequestCore decR decN hasHandler loadedSession cell
          requestMethod resp).1 = "")
    ∧ (cell ≠ loadedSession →
        (sendRequestCore decR decN hasHandler loadedSession cell
          requestMethod resp).1 = cell) := by
  unfold sendRequestCore getSessionId
  rw [h404]
  refine ⟨by norm_num, ?_, ?_⟩
  · intro h
    simp [h]
  · intro h
    simp [h]

/-- Witness for C1: a quiescent client with token `"tok"` receiving a 404
on a `tools/list` exchange ends with an empty token and the re-initialize
error. -/
theorem c1_witness :
    sendRequestCore (fun _ => none) (fun _ => none) false "tok" "tok" "tools/list"
        { statusCode := 404, sessionHeader := "", contentType := "application/json",
          bodyJSON := ⟨"", none, none⟩, bodyLines := [], bodyEnd := .eof }
      = ("", .error .sessionTerminated) := by
  have h := c1_session_expiry_404 (fun _ => none) (fun _ => none) false "tok" "tok"
    "tools/list"
    { statusCode := 404, sessionHeader := "", contentType := "application/json",
      bodyJSON := ⟨"", none, none⟩, bodyLines := [], bodyEnd := .eof } rfl
  simpa using h.1

/-- C6: on a non-success status other than 404, `SendRequest` decodes the
body: a body that unmarshals as a response envelope is returned
as a normal response with a `nil` error (callers must inspect its error
field), the session cell untouched; a body that fails to unmarshal yields
the transport error embedding the status code and the raw body. -/
theorem c6_non404_error_status (decR : String → Option JSONRPCResponse)
    (decN : String → Option JSONRPCNotification) (hasHandler : Bool)
    (loadedSession cell requestMethod : String) (resp : HTTPResponse)
    (h200 : resp.statusCode ≠ 200) (h202 : resp.statusCode ≠ 202)
    (h404 : resp.statusCode ≠ 404) :
    (∀ envl, resp.bodyJSON.asResponse = some envl →
      sendRequestCore decR decN hasHandler loadedSession cell requestMethod resp
        = (cell, .ok envl))
    ∧ (resp.bodyJSON.asResponse = none →
      sendRequestCore decR decN hasHandler loadedSession cell requestMethod resp
        = (cell, .error (.httpStatus resp.statusCode resp.bodyJSON.raw))) := by
  unfold sendRequestCore
  constructor
  · intro envl henvl
    simp [h200, h202, h404, henvl]
  · intro hnone
    simp [h200, h202, h404, hnone]

/-- Witness for C6: a 500 status whose body unmarshals as an error-carrying
envelope is returned as a normal response; a 500 status with an
undecodable body yields the transport error carrying 500 and the raw body. -/
theorem c6_witness :
    sendRequestCore (fun _ => none) (fun _ => none) false "tok" "tok" "tools/list"
        { statusCode := 500, sessionHeader := "", contentType := "application/json",
          bodyJSON := ⟨"errbody", some ⟨"2.0", some "7", "", some ⟨-32603, "boom", ""⟩⟩, none⟩,
          bodyLines := [], bodyEnd := .eof }
      = ("tok", .ok ⟨"2.0", some "7", "", some ⟨-32603, "boom", ""⟩⟩)
    ∧ sendRequestCore (fun _ => none) (fun _ => none) false "tok" "tok" "tools/list"
        { statusCode := 500, sessionHeader := "", contentType := "application/json",
          bodyJSON := ⟨"garbage", none, none⟩, bodyLines := [], bodyEnd := .eof }
      = ("tok", .error (.httpStatus 500 "garbage")) := by
  constructor
  · exact (c6_non404_error_status (fun _ => none) (fun _ => none) false "tok" "tok"
      "tools/list"
      { statusCode := 500, sessionHeader := "", contentType := "application/json",
        bodyJSON := ⟨"errbody", some ⟨"2.0", some "7", "", some ⟨-32603, "boom", ""⟩⟩, none⟩,
        bodyLines := [], bodyEnd := .eof }
      (by decide) (by decide) (by decide)).1 _ rfl
  · exact (c6_non404_error_status (fun _ => none) (fun _ => none) false "tok" "tok"
      "tools/list"
      { statusCode := 500, sessionHeader := "", contentType := "application/json",
        bodyJSON := ⟨"garbage", none, none⟩, bodyLines := [], bodyEnd := .eof }
      (by decide) (by decide) (by decide)).2 rfl

/-- Counterexample to C3: a successful (`200`) `initialize` exchange whose
response carries no `Mcp-Session-Id` header (`Header.Get` = `""`), on a
client whose token is `"old"`, leaves the token `"old"`: the empty value is
skipped, not stored, so `GetSessionId` does not return the empty string as
the claim requires. -/
theorem c3_counterexample :
    (sendRequestCore (fun _ => none) (fun _ => none) false "old" "old" "initialize"
        { statusCode := 200, sessionHeader := "", contentType := "application/json",
          bodyJSON := ⟨"resp", some ⟨"2.0", some "1", "ok", none⟩, none⟩,
          bodyLines := [], bodyEnd := .eof }).1 = "old"
    ∧ getSessionId "old" ≠ "" := by
  constructor
  · rfl
  · decide

/-- C3 as amended: after an exchange with a success status whose request
method is `"initialize"`, a non-empty `Mcp-Session-Id` response header
value `V` becomes the new session token (regardless of the token held
before); an absent or empty header is skipped and the previous token is
kept unchanged. -/
theorem c3_initialize_session_store (decR : String → Option JSONRPCResponse)
    (decN : String → Option JSONRPCNotification) (hasHandler : Bool)
    (loadedSession cell requestMethod : String) (resp : HTTPResponse)
    (hsucc : resp.statusCode = 200 ∨ resp.statusCode = 202)
    (hm : requestMethod = "initialize") :
    (sendRequestCore decR decN hasHandler loadedSession cell requestMethod resp).1
      = if resp.sessionHeader ≠ "" then resp.sessionHeader else cell := by
  have hcond : ¬(resp.statusCode ≠ 200 ∧ resp.statusCode ≠ 202) := by
    rcases hsucc with h | h <;> simp [h]
  subst hm
  simp only [sendRequestCore, if_neg hcond]
  split_ifs <;> simp_all

/-- Witness for C3 (amended): an `initialize` exchange answered `200` with
header `"sess-1"` replaces the previous token `"old"` with `"sess-1"`. -/
theorem c3_witness :
    (sendRequestCore (fun _ => none) (fun _ => none) false "old" "old" "initialize"
        { statusCode := 200, sessionHeader := "sess-1",
          contentType := "application/json",
          bodyJSON := ⟨"resp", some ⟨"2.0", some "1", "ok", none⟩, none⟩,
          bodyLines := [], bodyEnd := .eof }).1 = "sess-1" := by
  have h := c3_initialize_session_store (fun _ => none) (fun _ => none) false
    "old" "old" "initialize"
    { statusCode := 200, sessionHeader := "sess-1", contentType := "application/json",
      bodyJSON := ⟨"resp", some ⟨"2.0", some "1", "ok", none⟩, none⟩,
      bodyLines := [], bodyEnd := .eof } (Or.inl rfl) rfl
  simpa using h

/-- Counterexample to C2: on the streamed-event decode path a null
identifier is not surfaced as an error.  A stream emits an event whose data
`"n1"` decodes to an envelope with a null identifier (and to a
notification), then an event carrying the identifier `"5"`; the exchange —
whatever its method, e.g. `"tools/list"` ≠ `"ping"` — resolves `ok` with
the identifier-bearing envelope and no error mentioning `"n1"` is ever
produced, contradicting the claim's "on both ... the streamed-event decode
path". -/
theorem c2_counterexample :
    handleSSEResponse
        (fun s => if s = "n1" then some ⟨"2.0", none, "", none⟩
          else if s = "r2" then some ⟨"2.0", some "5", "done", none⟩ else none)
        (fun s => if s = "n1" then some ⟨"2.0", "notifications/progress", [("k", "v")]⟩
          else none)
        true [("message", "n1"), ("message", "r2")]
      = .ok ⟨"2.0", some "5", "done", none⟩
    ∧ (if ("n1" : String) = "n1" then some (⟨"2.0", none, "", none⟩ : JSONRPCResponse)
        else if ("n1" : String) = "r2" then some ⟨"2.0", some "5", "done", none⟩
        else none) = some ⟨"2.0", none, "", none⟩
    ∧ ("tools/list" : String) ≠ "ping" := by
  refine ⟨rfl, by decide, by decide⟩

/-- C2 as amended: a decoded response envelope with a null identifier is
accepted exactly when the request method is the liveness probe `"ping"` —
with the raw payload in the error otherwise — on the single-JSON decode
path only; on the streamed-event decode path a null-identifier envelope is
never surfaced as an error (the only error that path produces is the
closed-channel `nilResponse`): it is re-decoded as a notification and
dispatched or dropped. -/
theorem c2_null_id_policy (requestMethod : String) (body : Payload)
    (r : JSONRPCResponse) (hdec : body.asResponse = some r) (hid : r.id = none)
    (decR : String → Option JSONRPCResponse)
    (decN : String → Option JSONRPCNotification) (hasHandler : Bool)
    (events : List (String × String)) (e : SendError)
    (hstream : handleSSEResponse decR decN hasHandler events = .error e) :
    decodeSingleJSON requestMethod body
      = (if requestMethod = "ping" then .ok r else .error (.nullID body.raw))
    ∧ e = .nilResponse := by
  constructor
  · unfold decodeSingleJSON
    rw [hdec]
    by_cases hp : requestMethod = "ping" <;> simp [hp, hid]
  · unfold handleSSEResponse at hstream
    cases hfd : firstDelivered (sseActions decR decN hasHandler events) with
    | some r2 => rw [hfd] at hstream; cases hstream
    | none =>
      rw [hfd] at hstream
      have := Except.error.inj hstream
      exact this.symm

/-- Witness for C2 (amended): a single-JSON body decoding to a
null-identifier envelope on a `"tools/list"` exchange is rejected with the
raw payload, and an empty stream's only error is the nil-response one. -/
theorem c2_witness :
    decodeSingleJSON "tools/list" ⟨"rawpayload", some ⟨"2.0", none, "", none⟩, none⟩
      = .error (.nullID "rawpayload")
    ∧ (SendError.nilResponse = SendError.nilResponse) := by
  have h := c2_null_id_policy "tools/list"
    ⟨"rawpayload", some ⟨"2.0", none, "", none⟩, none⟩ ⟨"2.0", none, "", none⟩
    rfl rfl (fun _ => none) (fun _ => none) false [] .nilResponse rfl
  exact ⟨by simpa using h.1, rfl⟩

/-- C5: when a stream emits first an event decoding to a null-identifier
envelope (re-decoding to notification `n`) and then an event decoding to an
identifier-bearing envelope, the goroutine's action trace with a registered
handler is exactly `[notify n, deliver msg₂]` — the handler is invoked
exactly once, with that notification, before the response is delivered —
and the call resolves `ok` with the identifier-bearing envelope; with no
handler registered the notification is silently dropped (trace
`[deliver msg₂]`) and the call still resolves to the same envelope. -/
theorem c5_stream_correlation (decR : String → Option JSONRPCResponse)
    (decN : String → Option JSONRPCNotification) (ev1 ev2 d1 d2 : String)
    (msg1 msg2 : JSONRPCResponse) (n : JSONRPCNotification) (j : String)
    (h1 : decR d1 = some msg1) (hid1 : msg1.id = none) (hn : decN d1 = some n)
    (h2 : decR d2 = some msg2) (hid2 : msg2.id = some j) :
    sseActions decR decN true [(ev1, d1), (ev2, d2)]
      = [.notify n, .deliver msg2]
    ∧ handleSSEResponse decR decN true [(ev1, d1), (ev2, d2)] = .ok msg2
    ∧ sseActions decR decN false [(ev1, d1), (ev2, d2)] = [.deliver msg2]
    ∧ handleSSEResponse decR decN false [(ev1, d1), (ev2, d2)] = .ok msg2 := by
  have hactT : sseActions decR decN true [(ev1, d1), (ev2, d2)]
      = [.notify n, .deliver msg2] := by
    simp [sseActions, sseHandleEvent, h1, hid1, hn, h2, hid2]
  have hactF : sseActions decR decN false [(ev1, d1), (ev2, d2)]
      = [.deliver msg2] := by
    simp [sseActions, sseHandleEvent, h1, hid1, hn, h2, hid2]
  refine ⟨hactT, ?_, hactF, ?_⟩
  · simp [handleSSEResponse, hactT, firstDelivered]
  · simp [handleSSEResponse, hactF, firstDelivered]

/-- Witness for C5: concrete decoders and the two-event stream
`[notification, response]`. -/
theorem c5_witness :
    sseActions
        (fun s => if s = "n1" then some ⟨"2.0", none, "", none⟩
          else if s = "r2" then some ⟨"2.0", some "7", "done", none⟩ else none)
        (fun s => if s = "n1" then some ⟨"2.0", "notifications/progress", [("p", "1")]⟩
          else none)
        true [("message", "n1"), ("message", "r2")]
      = [.notify ⟨"2.0", "notifications/progress", [("p", "1")]⟩,
          .deliver ⟨"2.0", some "7", "done", none⟩]
    ∧ handleSSEResponse
        (fun s => if s = "n1" then some ⟨"2.0", none, "", none⟩
          else if s = "r2" then some ⟨"2.0", some "7", "done", none⟩ else none)
        (fun s => if s = "n1" then some ⟨"2.0", "notifications/progress", [("p", "1")]⟩
          else none)
        true [("message", "n1"), ("message", "r2")]
      = .ok ⟨"2.0", some "7", "done", none⟩ := by
  have h := c5_stream_correlation
    (fun s => if s = "n1" then some ⟨"2.0", none, "", none⟩
      else if s = "r2" then some ⟨"2.0", some "7", "done", none⟩ else none)
    (fun s => if s = "n1" then some ⟨"2.0", "notifications/progress", [("p", "1")]⟩
      else none)
    "message" "message" "n1" "r2"
    ⟨"2.0", none, "", none⟩ ⟨"2.0", some "7", "done", none⟩
    ⟨"2.0", "notifications/progress", [("p", "1")]⟩ "7"
    (by decide) rfl (by decide) (by decide) rfl
  exact ⟨h.1, h.2.1⟩

/-- If no emitted event's data decodes to an identifier-bearing envelope,
the goroutine never delivers to the completion channel. -/
theorem firstDelivered_none_of_no_id (decR : String → Option JSONRPCResponse)
    (decN : String → Option JSONRPCNotification) (hasHandler : Bool)
    (events : List (String × String))
    (h : ∀ p ∈ events, ∀ m ∈ decR p.2, m.id = none) :
    firstDelivered (sseActions decR decN hasHandler events) = none := by
  induction events with
  | nil => rfl
  | cons e es ih =>
    have hes : ∀ p ∈ es, ∀ m ∈ decR p.2, m.id = none :=
      fun p hp => h p (List.mem_cons_of_mem _ hp)
    have htail := ih hes
    simp only [sseActions, List.filterMap_cons] at htail ⊢
    cases hdr : decR e.2 with
    | none => simpa [sseHandleEvent, hdr] using htail
    | some m =>
      have hid : m.id = none := h e (List.mem_cons_self _ _) m (by simp [hdr])
      cases hdn : decN e.2 with
      | none => simpa [sseHandleEvent, hdr, hid, hdn] using htail
      | some n =>
        cases hasHandler with
        | false => simpa [sseHandleEvent, hdr, hid, hdn] using htail
        | true => simpa [sseHandleEvent, hdr, hid, hdn, firstDelivered] using htail

/-- C10: when the stream ends (end-of-stream or fatal read error) without
any emitted event decoding to an identifier-bearing envelope, the caller
does not block: the completion channel is closed after the decoder exits
and the call returns the "unexpected nil response" error and no response. -/
theorem c10_no_terminal_response (decR : String → Option JSONRPCResponse)
    (decN : String → Option JSONRPCNotification) (hasHandler : Bool)
    (lines : List String) (ending : StreamEnd)
    (h : ∀ p ∈ readSSE lines ending, ∀ m ∈ decR p.2, m.id = none) :
    handleSSEResponse decR decN hasHandler (readSSE lines ending)
      = .error .nilResponse := by
  unfold handleSSEResponse
  rw [firstDelivered_none_of_no_id decR decN hasHandler (readSSE lines ending) h]

/-- Witness for C10: a stream carrying one notification event and then
hitting a read error yields the nil-response error. -/
theorem c10_witness :
    handleSSEResponse
        (fun s => if s = "n1" then some ⟨"2.0", none, "", none⟩ else none)
        (fun s => if s = "n1" then some ⟨"2.0", "notifications/progress", []⟩ else none)
        true (readSSE ["event: message", "data: n1", ""] .ioError)
      = .error .nilResponse :=
  c10_no_terminal_response
    (fun s => if s = "n1" then some ⟨"2.0", none, "", none⟩ else none)
    (fun s => if s = "n1" then some ⟨"2.0", "notifications/progress", []⟩ else none)
    true ["event: message", "data: n1", ""] .ioError (by decide)

/-- C7: `Close` on a not-yet-closed client returns `nil`, marks the client
closed, clears the session token to empty, and issues the termination
notice exactly when a non-empty token was present (carrying that token); a
second `Close` is a no-op detected on the already-closed signal: it leaves
the state unchanged, issues no second notice, and returns `nil` without
panicking. -/
theorem c7_close_idempotent (s : LifecycleState) (h : s.closed = false) :
    (closeOp s).2.2 = none
    ∧ (closeOp s).1.closed = true
    ∧ (closeOp s).1.sessionID = ""
    ∧ (closeOp s).2.1 = (if s.sessionID ≠ "" then [s.sessionID] else [])
    ∧ closeOp (closeOp s).1 = ((closeOp s).1, [], none) := by
  by_cases hs : s.sessionID ≠ "" <;>
    simp_all [closeOp]

/-- Witness for C7: closing a live client holding token `"sess"` clears it
and notifies once with `"sess"`; the second close is a silent no-op. -/
theorem c7_witness :
    (closeOp ⟨false, "sess"⟩).2.2 = none
    ∧ (closeOp ⟨false, "sess"⟩).1.sessionID = ""
    ∧ (closeOp ⟨false, "sess"⟩).2.1 = ["sess"]
    ∧ closeOp (closeOp ⟨false, "sess"⟩).1 = ((closeOp ⟨false, "sess"⟩).1, [], none) := by
  have h := c7_close_idempotent ⟨false, "sess"⟩ rfl
  refine ⟨h.1, h.2.2.1, ?_, h.2.2.2.2⟩
  have := h.2.2.2.1
  simpa using this

/-- C8 evaluated at the failing input: two distinct requests — different
methods, so certainly not the same request — constructed by
`HTTPClient.Request` at the same clock reading carry the same identifier,
because the identifier is `fmt.Sprintf("%d", time.Now().UnixNano())`, a
function of the clock alone; likewise two distinct concurrent
`StreamableHTTP.Request` calls (indices 0 and 1) at one clock reading feed
identical (millisecond-timestamp, entropy-seed) pairs to the ULID
generator, hence produce identical ULIDs.  This contradicts the claim that
concurrently in-flight requests never carry colliding identifiers even at
the same clock timestamp. -/
theorem c8_identifier_collision :
    (httpClientBuildRequest "tools/list" none 1745000000000000000).id
      = (httpClientBuildRequest "resources/read" none 1745000000000000000).id
    ∧ httpClientBuildRequest "tools/list" none 1745000000000000000
        ≠ httpClientBuildRequest "resources/read" none 1745000000000000000
    ∧ streamableRequestIDSeedOfCall 0 1745000000000000000
        = streamableRequestIDSeedOfCall 1 1745000000000000000
    ∧ (0 : Nat) ≠ 1 := by
  refine ⟨rfl, ?_, rfl, by decide⟩
  intro hcontra
  have hm := congrArg JSONRPCRequest.method hcontra
  have : ("tools/list" : String) = "resources/read" := hm
  simp at this

/-- Every mutation the code performs on the session cell keeps it holding
a string. -/
theorem sessionCellStep_isSome {a b : Option String}
    (hstep : SessionCellStep a b) (ha : ∃ v, a = some v) : ∃ v, b = some v := by
  cases hstep with
  | cas404 _ loaded =>
    by_cases hc : a = some loaded
    · exact ⟨"", by simp [hc]⟩
    · obtain ⟨v, hv⟩ := ha
      exact ⟨v, by rw [if_neg hc, hv]⟩
  | storeInitHeader _ v hv => exact ⟨v, rfl⟩
  | closeClear cur hc => exact ⟨"", rfl⟩

/-- C9: from construction onward the session cell always holds a string —
`NewStreamableHTTP` stores `""` before any operation can run, and every
reachable cell value is `some` string — so `GetSessionId`'s type assertion
on the loaded value never fails, and before any initialize exchange it
returns the empty string. -/
theorem c9_session_cell_typed (cell : Option String)
    (h : sessionCellReachable cell) :
    (∃ v, getSessionIdChecked cell = .ok v)
    ∧ getSessionIdChecked newSessionCell = .ok "" := by
  refine ⟨?_, rfl⟩
  have hsome : ∃ v, cell = some v := by
    induction h with
    | refl => exact ⟨"", rfl⟩
    | tail _ hstep ih => exact sessionCellStep_isSome hstep ih
  obtain ⟨v, hv⟩ := hsome
  exact ⟨v, by simp [getSessionIdChecked, hv]⟩

/-- Witness for C9: a cell reached by storing an initialize header and then
taking the 404 compare-and-swap still holds a string, and the assertion
succeeds. -/
theorem c9_witness :
    (∃ v, getSessionIdChecked (some "") = Except.ok v)
    ∧ getSessionIdChecked newSessionCell = Except.ok "" := by
  have hreach : sessionCellReachable (some "") := by
    have h1 : SessionCellStep newSessionCell (some "sess") :=
      SessionCellStep.storeInitHeader newSessionCell "sess" (by decide)
    have h2 : SessionCellStep (some "sess") (some "") := by
      have := SessionCellStep.cas404 (some "sess") "sess"
      simpa using this
    exact Relation.ReflTransGen.tail (Relation.ReflTransGen.single h1) h2
  exact c9_session_cell_typed (some "") hreach

end Mcpgopher
